import Mathlib

/-!
Shallow embedding of the flight-program subsystem of `tello_diagnostics`
(`src/tello_diagnostics/flight_programs.py`): the `FlightStep` /
`FlightProgram` data model, the `FlightProgramLibrary` catalog, and the
`FlightProgramRunner` execution engine, together with theorems checking the
specification's claims about them.

Modelling conventions:
* Python `float` fields become `ℚ` (the catalog only holds decimal literals).
* Python `int` becomes `ℤ` where the code can see arbitrary ints (battery).
* Raising an exception becomes returning `Except PyError _`; the two
  exception classes that matter (`ValueError`, `ProgramUploadError`) are the
  constructors of `PyError`.
* Side effects (vehicle command invocations, `sleep` calls, notifier
  callbacks) are recorded in an event trace, in the order the Python code
  performs them.
* The vehicle (`djitellopy.Tello`) is an external collaborator; it is
  modelled as a `Vehicle` record saying what `get_battery` returns, which
  command attributes exist, and which command invocations raise.
-/

/-- The closed set of step command names (`CommandName` literal type). -/
inductive CommandName where
  | takeoff
  | land
  | move_up
  | move_down
  | move_left
  | move_right
  | move_forward
  | move_back
  | rotate_clockwise
  | rotate_counter_clockwise
  | flip
  | pause
deriving DecidableEq

/-- The Python source text of a command name (used in error messages and in
`getattr` dispatch). -/
def CommandName.pyName : CommandName → String
  | .takeoff => "takeoff"
  | .land => "land"
  | .move_up => "move_up"
  | .move_down => "move_down"
  | .move_left => "move_left"
  | .move_right => "move_right"
  | .move_forward => "move_forward"
  | .move_back => "move_back"
  | .rotate_clockwise => "rotate_clockwise"
  | .rotate_counter_clockwise => "rotate_counter_clockwise"
  | .flip => "flip"
  | .pause => "pause"

/-- A positional command argument: `int | str` in the Python signature. -/
inductive Arg where
  | int (n : ℤ)
  | str (s : String)
deriving DecidableEq

/-- Python `repr` of one argument, as it appears inside a tuple repr. -/
def Arg.pyRepr : Arg → String
  | .int n => toString n
  | .str s => "'" ++ s ++ "'"

/-- Python `str` of an argument tuple, e.g. `(80,)` or `('l', 2)`,
as interpolated by `f"... with args {step.args} ..."`. -/
def tupleRepr (args : List Arg) : String :=
  match args with
  | [] => "()"
  | [a] => "(" ++ a.pyRepr ++ ",)"
  | _ => "(" ++ String.intercalate ", " (args.map Arg.pyRepr) ++ ")"

/-- `FlightStep`: one atomic instruction of a flight program. -/
structure FlightStep where
  command : CommandName
  args : List Arg
  wait_seconds : ℚ
  description : String
deriving DecidableEq

/-- `FlightProgram`: an ordered sequence of steps plus safety metadata.
The record itself is the raw dataclass; `mkFlightProgram` is construction
including `__post_init__` validation. -/
structure FlightProgram where
  identifier : String
  title : String
  objective : String
  steps : List FlightStep
  recommended_space_m : ℚ
  min_battery_percent : ℤ
  estimated_duration_seconds : ℚ
deriving DecidableEq

/-- The exception classes this subsystem raises. -/
inductive PyError where
  | valueError (msg : String)
  | programUploadError (msg : String)
deriving DecidableEq

/-- `FlightProgram(...)` construction: the checks of
`FlightProgram.__post_init__` in source order, then the constructed value. -/
def mkFlightProgram (identifier title objective : String) (steps : List FlightStep)
    (recommended_space_m : ℚ) (min_battery_percent : ℤ)
    (estimated_duration_seconds : ℚ) : Except PyError FlightProgram :=
  if identifier = "" then
    .error (.valueError "identifier cannot be empty")
  else if steps = [] then
    .error (.valueError "FlightProgram must include at least one step.")
  else if recommended_space_m ≤ 0 then
    .error (.valueError "recommended_space_m must be positive.")
  else if ¬ (0 < min_battery_percent ∧ min_battery_percent ≤ 100) then
    .error (.valueError "min_battery_percent must be between 1 and 100.")
  else if estimated_duration_seconds ≤ 0 then
    .error (.valueError "estimated_duration_seconds must be positive.")
  else
    .ok ⟨identifier, title, objective, steps, recommended_space_m,
      min_battery_percent, estimated_duration_seconds⟩

/-- `ProgramSummary`: the listing projection of a program's metadata. -/
structure ProgramSummary where
  identifier : String
  title : String
  objective : String
  recommended_space_m : ℚ
  min_battery_percent : ℤ
  estimated_duration_seconds : ℚ
deriving DecidableEq

/-- The `ProgramSummary` built from a program by `list_programs`. -/
def summaryOf (p : FlightProgram) : ProgramSummary :=
  ⟨p.identifier, p.title, p.objective, p.recommended_space_m,
    p.min_battery_percent, p.estimated_duration_seconds⟩

/-- The `square-dance` catalog program (`_build_catalog`). -/
def square_dance : FlightProgram :=
  ⟨"square-dance", "Square Dance",
    "Trace a one-meter square with style and celebratory flips.",
    [⟨.takeoff, [], 2.0, "Smooth takeoff"⟩,
     ⟨.move_forward, [.int 80], 1.0, "Forward leg"⟩,
     ⟨.move_right, [.int 80], 1.0, "Right leg"⟩,
     ⟨.move_back, [.int 80], 1.0, "Backwards leg"⟩,
     ⟨.move_left, [.int 80], 1.0, "Left leg to close square"⟩,
     ⟨.flip, [.str "l"], 1.5, "Left flip celebration"⟩,
     ⟨.flip, [.str "r"], 1.5, "Right flip celebration"⟩,
     ⟨.land, [], 0.0, "Autoland"⟩],
    3.0, 50, 55.0⟩

/-- The `spiral-climb` catalog program (`_build_catalog`). -/
def spiral_climb : FlightProgram :=
  ⟨"spiral-climb", "Spiral Climb",
    "Climb in a tightening spiral to showcase altitude control.",
    [⟨.takeoff, [], 2.0, "Liftoff"⟩,
     ⟨.move_up, [.int 40], 0.8, "Initial climb"⟩,
     ⟨.rotate_clockwise, [.int 45], 0.6, "Start spiral"⟩,
     ⟨.move_forward, [.int 60], 0.8, "Forward move"⟩,
     ⟨.move_up, [.int 30], 0.8, "Gain altitude"⟩,
     ⟨.rotate_clockwise, [.int 60], 0.6, "Spiral turn"⟩,
     ⟨.move_right, [.int 60], 0.8, "Shift right"⟩,
     ⟨.move_forward, [.int 60], 0.8, "Forward progression"⟩,
     ⟨.move_up, [.int 30], 0.8, "Final climb"⟩,
     ⟨.rotate_clockwise, [.int 90], 1.0, "Panorama"⟩,
     ⟨.pause, [], 2.5, "Hover showcase"⟩,
     ⟨.land, [], 0.0, "Descend safely"⟩],
    3.5, 40, 60.0⟩

/-- The `zigzag-dash` catalog program (`_build_catalog`). -/
def zigzag : FlightProgram :=
  ⟨"zigzag-dash", "Zig-Zag Dash",
    "Agile lateral zig-zag with quick rotations.",
    [⟨.takeoff, [], 1.5, "Takeoff"⟩,
     ⟨.move_forward, [.int 70], 0.7, "Forward sprint"⟩,
     ⟨.move_left, [.int 60], 0.6, "Left dodge"⟩,
     ⟨.rotate_counter_clockwise, [.int 45], 0.5, "Angle change"⟩,
     ⟨.move_forward, [.int 70], 0.7, "Forward sprint two"⟩,
     ⟨.move_right, [.int 60], 0.6, "Right dodge"⟩,
     ⟨.rotate_clockwise, [.int 45], 0.5, "Recenter"⟩,
     ⟨.move_back, [.int 60], 0.7, "Return to origin"⟩,
     ⟨.pause, [], 1.5, "Hover reset"⟩,
     ⟨.land, [], 0.0, "Land"⟩],
    4.0, 35, 45.0⟩

/-- The `selfie-orbit` catalog program (`_build_catalog`). -/
def selfie_orbit : FlightProgram :=
  ⟨"selfie-orbit", "Selfie Orbit",
    "Slow, camera-friendly orbit and bow for filming.",
    [⟨.takeoff, [], 2.0, "Takeoff"⟩,
     ⟨.move_back, [.int 80], 0.8, "Create distance"⟩,
     ⟨.move_up, [.int 40], 0.6, "Rise to eye level"⟩,
     ⟨.pause, [], 2.0, "Hold for framing"⟩,
     ⟨.rotate_counter_clockwise, [.int 90], 0.6, "Begin orbit"⟩,
     ⟨.move_right, [.int 70], 0.8, "Strafe while facing target"⟩,
     ⟨.rotate_counter_clockwise, [.int 90], 0.6, "Continue orbit"⟩,
     ⟨.move_right, [.int 70], 0.8, "Complete orbit"⟩,
     ⟨.move_forward, [.int 60], 0.7, "Approach for bow"⟩,
     ⟨.flip, [.str "f"], 1.5, "Forward flip finale"⟩,
     ⟨.land, [], 0.0, "Land gently"⟩],
    5.0, 45, 75.0⟩

/-- The curated catalog, in registration order (`_build_catalog`, and the
insertion order of the identifier-keyed dict it returns). -/
def catalogPrograms : List FlightProgram :=
  [square_dance, spiral_climb, zigzag, selfie_orbit]

/-- `FlightProgramLibrary._programs`: the identifier-keyed, insertion-ordered
mapping, modelled as an association list. -/
def FlightProgramLibrary.programs : List (String × FlightProgram) :=
  catalogPrograms.map fun p => (p.identifier, p)

/-- `FlightProgramLibrary.list_programs`: one summary per cataloged program,
in the mapping's insertion order. -/
def FlightProgramLibrary.list_programs : List ProgramSummary :=
  FlightProgramLibrary.programs.map fun x => summaryOf x.2

/-- Python `str.lower` on the ASCII identifiers this module compares
(character-by-character lower-casing). -/
def pyLower (s : String) : String := String.mk (s.data.map Char.toLower)

/-- `FlightProgramLibrary.get_program`: lower-case the identifier, look it up,
and report an unknown identifier as a `ProgramUploadError`. -/
def FlightProgramLibrary.get_program (identifier : String) :
    Except PyError FlightProgram :=
  match List.lookup (pyLower identifier) FlightProgramLibrary.programs with
  | some p => .ok p
  | none =>
    .error (.programUploadError
      ("Unknown program '" ++ identifier ++ "'. Use 'programs list' to inspect options."))

/-- A Python runtime value as seen by `isinstance(battery, int)`: either an
int or something else (kept only as its display text). -/
inductive PyValue where
  | int (n : ℤ)
  | other (text : String)
deriving DecidableEq

/-- The vehicle collaborator (`djitellopy.Tello`): what `get_battery`
does (`Except.error` models the call raising), which command names
`getattr` finds, and which command invocations raise. -/
structure Vehicle where
  battery : Except Unit PyValue
  implements : CommandName → Bool
  fails : CommandName → List Arg → Bool

/-- One observable side effect of a run, in program order: a vehicle
command invocation, a call of the sleep primitive, or a notifier message. -/
inductive Event where
  | cmd (c : CommandName) (args : List Arg)
  | sleep (t : ℚ)
  | notify (msg : String)
deriving DecidableEq

/-- `FlightProgramRunner`: its one retained configuration value
(the sleep primitive is the trace's `Event.sleep`). -/
structure FlightProgramRunner where
  default_pause_seconds : ℚ
deriving DecidableEq

/-- `FlightProgramRunner.__init__`: reject a negative pause with a
`ValueError`, otherwise store the value. -/
def FlightProgramRunner.make (default_pause_seconds : ℚ) :
    Except PyError FlightProgramRunner :=
  if default_pause_seconds < 0 then
    .error (.valueError "default_pause_seconds must be non-negative.")
  else
    .ok ⟨default_pause_seconds⟩

/-- `FlightProgramRunner._read_battery`: wrap a raising `get_battery`,
reject non-int readings, reject out-of-range ints, return the rest. -/
def FlightProgramRunner.read_battery (v : Vehicle) : Except PyError ℤ :=
  match v.battery with
  | .error _ => .error (.programUploadError "Unable to read battery level.")
  | .ok (.other _) =>
    .error (.programUploadError "Battery readings must be integer percentages.")
  | .ok (.int battery) =>
    if 0 ≤ battery ∧ battery ≤ 100 then
      .ok battery
    else
      .error (.programUploadError
        ("Battery reading '" ++ toString battery ++ "' is outside expected range 0-100."))

/-- `FlightProgramRunner._execute_step`: the step's events (vehicle call,
then the enforced pause) and, when the step fails, its error. -/
def FlightProgramRunner.execute_step (r : FlightProgramRunner) (v : Vehicle)
    (step : FlightStep) : List Event × Option PyError :=
  if step.command = .pause then
    ([Event.sleep step.wait_seconds], none)
  else if v.implements step.command = false then
    ([], some (.programUploadError
      ("Tello API does not implement '" ++ step.command.pyName ++ "'.")))
  else if v.fails step.command step.args = true then
    ([Event.cmd step.command step.args],
     some (.programUploadError
      ("Command '" ++ step.command.pyName ++ "' with args "
        ++ tupleRepr step.args ++ " failed.")))
  else
    let wait_time := max step.wait_seconds r.default_pause_seconds
    ([Event.cmd step.command step.args]
      ++ (if 0 < wait_time then [Event.sleep wait_time] else []), none)

/-- The per-step progress message `[index/total] description-or-command`
(`descriptor = step.description or step.command`). -/
def stepMessage (step : FlightStep) (index total : ℕ) : String :=
  "[" ++ toString index ++ "/" ++ toString total ++ "] "
    ++ (if step.description = "" then step.command.pyName else step.description)

/-- `round` to an integer, ties to even: Python `f"{x:.0f}"` rounding. -/
def roundHalfEven (q : ℚ) : ℤ :=
  let f : ℤ := ⌊q⌋
  let r : ℚ := q - f
  if r < 1 / 2 then f
  else if 1 / 2 < r then f + 1
  else if f % 2 = 0 then f else f + 1

/-- Python `f"{x:.0f}"` on the values this code formats. -/
def pyFmt0 (q : ℚ) : String := toString (roundHalfEven q)

/-- The starting notification of `execute`. -/
def startingMessage (program : FlightProgram) : String :=
  "Starting '" ++ program.title ++ "' (est. "
    ++ pyFmt0 program.estimated_duration_seconds ++ "s)."

/-- The completion notification of `execute`. -/
def completedMessage (program : FlightProgram) : String :=
  "Completed '" ++ program.title ++ "'."

/-- The step loop of `execute`: per step, emit the progress notification,
run the step, and either fail fast with the step's error or continue. -/
def FlightProgramRunner.runSteps (r : FlightProgramRunner) (v : Vehicle) :
    List FlightStep → ℕ → ℕ → List Event × Except PyError Unit
  | [], _, _ => ([], .ok ())
  | step :: rest, total, index =>
    let note := Event.notify (stepMessage step index total)
    let sr := r.execute_step v step
    match sr.2 with
    | some e => (note :: sr.1, .error e)
    | none =>
      let tail := r.runSteps v rest total (index + 1)
      (note :: (sr.1 ++ tail.1), tail.2)

/-- `FlightProgramRunner.execute`: defend against an empty program, read and
gate on battery, notify start, run the steps 1-indexed, notify completion. -/
def FlightProgramRunner.execute (r : FlightProgramRunner) (v : Vehicle)
    (program : FlightProgram) : List Event × Except PyError Unit :=
  if program.steps = [] then
    ([], .error (.programUploadError "Program has no steps to execute."))
  else
    match FlightProgramRunner.read_battery v with
    | .error e => ([], .error e)
    | .ok battery_level =>
      if battery_level < program.min_battery_percent then
        ([], .error (.programUploadError
          ("Battery level is too low (" ++ toString battery_level
            ++ "%). Required: " ++ toString program.min_battery_percent ++ "%.")))
      else
        let res := r.runSteps v program.steps program.steps.length 1
        match res.2 with
        | .error e =>
          (Event.notify (startingMessage program) :: res.1, .error e)
        | .ok _ =>
          (Event.notify (startingMessage program)
            :: (res.1 ++ [Event.notify (completedMessage program)]), .ok ())

/-- The notifier messages of a trace, in order. -/
def notificationsOf (tr : List Event) : List String :=
  tr.filterMap fun e =>
    match e with
    | .notify m => some m
    | _ => none

/-- The sleep durations of a trace, in order. -/
def sleepsOf (tr : List Event) : List ℚ :=
  tr.filterMap fun e =>
    match e with
    | .sleep t => some t
    | _ => none

/-- The vehicle command invocations of a trace, in order. -/
def cmdsOf (tr : List Event) : List (CommandName × List Arg) :=
  tr.filterMap fun e =>
    match e with
    | .cmd c args => some (c, args)
    | _ => none

/-- The expected per-step progress messages for steps numbered from
`index` out of `total`. -/
def stepMessages : List FlightStep → ℕ → ℕ → List String
  | [], _, _ => []
  | step :: rest, total, index =>
    stepMessage step index total :: stepMessages rest total (index + 1)

/-- A fully cooperative vehicle: full battery, every command implemented,
no command raises. -/
def vAll : Vehicle := ⟨.ok (.int 100), fun _ => true, fun _ _ => false⟩

/-- A vehicle whose `get_battery` returns a non-int value (e.g. a float). -/
def vNonInt : Vehicle := ⟨.ok (.other "50.0"), fun _ => true, fun _ _ => false⟩

/-- A vehicle missing the `flip` attribute but otherwise cooperative. -/
def vNoFlip : Vehicle :=
  ⟨.ok (.int 100),
   fun c => match c with | .flip => false | _ => true,
   fun _ _ => false⟩

/-- A small hand-built program used to exercise the runner on concrete
inputs: takeoff, a pause, then land. -/
def tinyProgram : FlightProgram :=
  ⟨"tiny", "Tiny", "obj",
    [⟨.takeoff, [], 0, ""⟩, ⟨.pause, [], 2, "hold"⟩, ⟨.land, [], 0, "Land"⟩],
    1, 20, 5⟩

/-- A hand-built program whose middle step's command (`flip`) is the one
`vNoFlip` does not implement. -/
def flipProgram : FlightProgram :=
  ⟨"flipper", "Flipper", "obj",
    [⟨.takeoff, [], 0, ""⟩, ⟨.flip, [.str "l"], 0, ""⟩, ⟨.land, [], 0, ""⟩],
    1, 20, 5⟩

lemma execute_step_no_notifications (r : FlightProgramRunner) (v : Vehicle)
    (step : FlightStep) : notificationsOf (r.execute_step v step).1 = [] := by
  simp only [FlightProgramRunner.execute_step]
  split_ifs <;> simp [notificationsOf]

lemma stepMessages_length (steps : List FlightStep) (total index : ℕ) :
    (stepMessages steps total index).length = steps.length := by
  induction steps generalizing index with
  | nil => simp [stepMessages]
  | cons s rest ih => simp [stepMessages, ih]

lemma runSteps_ok_notifications (r : FlightProgramRunner) (v : Vehicle)
    (steps : List FlightStep) (total : ℕ) :
    ∀ index, (r.runSteps v steps total index).2 = .ok () →
      notificationsOf (r.runSteps v steps total index).1 =
        stepMessages steps total index := by
  induction steps with
  | nil => intro index _; simp [FlightProgramRunner.runSteps, stepMessages, notificationsOf]
  | cons s rest ih =>
    intro index h
    cases hsr : (r.execute_step v s).2 with
    | some e =>
      exfalso
      simp [FlightProgramRunner.runSteps, hsr] at h
    | none =>
      have h2 : (r.runSteps v rest total (index + 1)).2 = .ok () := by
        simpa [FlightProgramRunner.runSteps, hsr] using h
      have hn := execute_step_no_notifications r v s
      have ht := ih (index + 1) h2
      simp only [notificationsOf] at hn ht ⊢
      simp [FlightProgramRunner.runSteps, hsr, stepMessages,
        List.filterMap_append, hn, ht]

lemma runSteps_append (r : FlightProgramRunner) (v : Vehicle)
    (pre post : List FlightStep) (total : ℕ) :
    ∀ index, (r.runSteps v pre total index).2 = .ok () →
      r.runSteps v (pre ++ post) total index =
        ((r.runSteps v pre total index).1
          ++ (r.runSteps v post total (index + pre.length)).1,
         (r.runSteps v post total (index + pre.length)).2) := by
  induction pre with
  | nil => intro index _; simp [FlightProgramRunner.runSteps]
  | cons s rest ih =>
    intro index h
    cases hsr : (r.execute_step v s).2 with
    | some e =>
      exfalso
      simp [FlightProgramRunner.runSteps, hsr] at h
    | none =>
      have h2 : (r.runSteps v rest total (index + 1)).2 = .ok () := by
        simpa [FlightProgramRunner.runSteps, hsr] using h
      have harith : index + 1 + rest.length = index + (rest.length + 1) := by omega
      simp [FlightProgramRunner.runSteps, hsr, ih (index + 1) h2, harith]


/-- C10: `FlightProgramRunner.__init__` rejects a negative
`default_pause_seconds` with a `ValueError` (never a `ProgramUploadError`),
and for every non-negative value construction succeeds and stores the value
unchanged as the runner's settle-time floor. -/
theorem runner_init_spec (d : ℚ) :
    (d < 0 →
      FlightProgramRunner.make d =
        .error (.valueError "default_pause_seconds must be non-negative.") ∧
      ∀ m, FlightProgramRunner.make d ≠ .error (.programUploadError m)) ∧
    (0 ≤ d → FlightProgramRunner.make d = .ok ⟨d⟩) := by
  constructor
  · intro h
    simp [FlightProgramRunner.make, h]
  · intro h
    simp [FlightProgramRunner.make, not_lt.mpr h]

/-- C3: executing a `pause` step invokes no vehicle method; its only effect
is a single call of the sleep primitive for exactly `wait_seconds` (the
default-pause floor is not applied). -/
theorem pause_step_spec (r : FlightProgramRunner) (v : Vehicle)
    (step : FlightStep) (h : step.command = .pause) :
    r.execute_step v step = ([Event.sleep step.wait_seconds], none) ∧
    cmdsOf (r.execute_step v step).1 = [] ∧
    sleepsOf (r.execute_step v step).1 = [step.wait_seconds] := by
  have h1 : r.execute_step v step = ([Event.sleep step.wait_seconds], none) := by
    simp [FlightProgramRunner.execute_step, h]
  refine ⟨h1, ?_, ?_⟩ <;> simp [h1, cmdsOf, sleepsOf]

/-- C3 witness: a concrete pause step (2 s, runner floor 1 s) produces
exactly one 2-second sleep and no vehicle call. -/
theorem pause_step_spec_witness :
    FlightProgramRunner.execute_step ⟨1⟩ vAll ⟨.pause, [], 2, "hold"⟩ =
      ([Event.sleep 2], none) :=
  (pause_step_spec ⟨1⟩ vAll ⟨.pause, [], 2, "hold"⟩ rfl).1

/-- C6 counterexample: a non-integer battery reading (here the float text
`50.0`) is rejected with the message `Battery readings must be integer
percentages.`, not with the out-of-range message the claim assigns to this
case. -/
theorem battery_read_counterexample :
    FlightProgramRunner.read_battery vNonInt =
      .error (.programUploadError "Battery readings must be integer percentages.") ∧
    "Battery readings must be integer percentages." ≠
      "Battery reading '50.0' is outside expected range 0-100." :=
  ⟨rfl, by decide⟩

/-- C6 (amended): `_read_battery` maps a raising `get_battery` to
`Unable to read battery level.`, a non-integer value to `Battery readings
must be integer percentages.`, an integer outside `[0, 100]` to
`Battery reading '<value>' is outside expected range 0-100.`, and returns
any integer within `[0, 100]`. -/
theorem battery_read_spec (v : Vehicle) :
    (v.battery = .error () →
      FlightProgramRunner.read_battery v =
        .error (.programUploadError "Unable to read battery level.")) ∧
    (∀ t, v.battery = .ok (.other t) →
      FlightProgramRunner.read_battery v =
        .error (.programUploadError "Battery readings must be integer percentages.")) ∧
    (∀ n : ℤ, v.battery = .ok (.int n) →
      ((0 ≤ n ∧ n ≤ 100) → FlightProgramRunner.read_battery v = .ok n) ∧
      (¬ (0 ≤ n ∧ n ≤ 100) →
        FlightProgramRunner.read_battery v =
          .error (.programUploadError
            ("Battery reading '" ++ toString n ++ "' is outside expected range 0-100.")))) := by
  refine ⟨?_, ?_, ?_⟩
  · intro h
    simp [FlightProgramRunner.read_battery, h]
  · intro t h
    simp [FlightProgramRunner.read_battery, h]
  · intro n h
    constructor
    · intro hin
      simp [FlightProgramRunner.read_battery, h, hin]
    · intro hout
      simp [FlightProgramRunner.read_battery, h, hout]

/-- C2: for a non-pause step whose vehicle call succeeds, the runner
performs exactly one sleep of `max(step.wait_seconds, default_pause_seconds)`
directly after the command invocation, and skips it exactly when that
maximum is zero. -/
theorem dwell_floor_spec (r : FlightProgramRunner) (v : Vehicle)
    (step : FlightStep)
    (hd : 0 ≤ r.default_pause_seconds)
    (hc : step.command ≠ .pause)
    (hi : v.implements step.command = true)
    (hf : v.fails step.command step.args = false) :
    r.execute_step v step =
      ([Event.cmd step.command step.args]
        ++ (if 0 < max step.wait_seconds r.default_pause_seconds
            then [Event.sleep (max step.wait_seconds r.default_pause_seconds)]
            else []),
       none) ∧
    sleepsOf (r.execute_step v step).1 =
      (if max step.wait_seconds r.default_pause_seconds = 0 then []
       else [max step.wait_seconds r.default_pause_seconds]) := by
  have h1 : r.execute_step v step =
      ([Event.cmd step.command step.args]
        ++ (if 0 < max step.wait_seconds r.default_pause_seconds
            then [Event.sleep (max step.wait_seconds r.default_pause_seconds)]
            else []),
       none) := by
    simp [FlightProgramRunner.execute_step, hc, hi, hf]
  refine ⟨h1, ?_⟩
  rw [h1]
  have hmax : 0 ≤ max step.wait_seconds r.default_pause_seconds :=
    le_trans hd (le_max_right _ _)
  by_cases hz : max step.wait_seconds r.default_pause_seconds = 0
  · simp [sleepsOf, hz]
  · have hpos : 0 < max step.wait_seconds r.default_pause_seconds :=
      lt_of_le_of_ne hmax (Ne.symm hz)
    simp [sleepsOf, hz, hpos]

/-- C2 witness: with `default_pause_seconds = 1` and a step requesting
`wait_seconds = 0.3`, the single sleep performed is `1`, not `0.3`. -/
theorem dwell_floor_spec_witness :
    sleepsOf (FlightProgramRunner.execute_step ⟨1⟩ vAll
      ⟨.move_forward, [.int 80], 0.3, ""⟩).1 = [1] := by
  have h := (dwell_floor_spec ⟨1⟩ vAll ⟨.move_forward, [.int 80], 0.3, ""⟩
    (by norm_num) (by decide) rfl rfl).2
  rw [h]
  norm_num

/-- C1: with a validated battery reading `b`, `execute` hard-aborts when
`b` is below `min_battery_percent` — the error message reports the observed
and required percentages and the trace is empty (no vehicle command, no
sleep, no notification, starting message included) — and when `b` is at or
above the minimum (boundary inclusive) execution proceeds to the steps: the
trace opens with the starting notification followed by step 1's progress
notification. -/
theorem battery_gate_spec (r : FlightProgramRunner) (v : Vehicle)
    (p : FlightProgram) (b : ℤ)
    (hsteps : p.steps ≠ [])
    (hb : FlightProgramRunner.read_battery v = .ok b) :
    (b < p.min_battery_percent →
      r.execute v p =
        ([], .error (.programUploadError
          ("Battery level is too low (" ++ toString b ++ "%). Required: "
            ++ toString p.min_battery_percent ++ "%.")))) ∧
    (p.min_battery_percent ≤ b →
      ∀ s rest, p.steps = s :: rest →
        (r.execute v p).1.take 2 =
          [Event.notify (startingMessage p),
           Event.notify (stepMessage s 1 p.steps.length)]) := by
  constructor
  · intro hlt
    simp [FlightProgramRunner.execute, hsteps, hb, hlt]
  · intro hge s rest hsplit
    have hnlt : ¬ b < p.min_battery_percent := not_lt.mpr hge
    cases hsr : (r.execute_step v s).2 with
    | some e =>
      simp [FlightProgramRunner.execute, hsteps, hb, hnlt, hsplit,
        FlightProgramRunner.runSteps, hsr]
    | none =>
      cases ht : (r.runSteps v rest (rest.length + 1) 2).2 with
      | error e =>
        simp [FlightProgramRunner.execute, hsteps, hb, hnlt, hsplit,
          FlightProgramRunner.runSteps, hsr, ht]
      | ok u =>
        cases u
        simp [FlightProgramRunner.execute, hsteps, hb, hnlt, hsplit,
          FlightProgramRunner.runSteps, hsr, ht]

/-- C1 witness: a full battery (100) meets `tinyProgram`'s minimum of 20,
so the trace opens with the starting and first-step notifications. -/
theorem battery_gate_spec_witness :
    (FlightProgramRunner.execute ⟨1⟩ vAll tinyProgram).1.take 2 =
      [Event.notify (startingMessage tinyProgram),
       Event.notify (stepMessage ⟨.takeoff, [], 0, ""⟩ 1 tinyProgram.steps.length)] := by
  have h := (battery_gate_spec ⟨1⟩ vAll tinyProgram 100 (by decide) rfl).2
    (by decide) ⟨.takeoff, [], 0, ""⟩ [⟨.pause, [], 2, "hold"⟩, ⟨.land, [], 0, "Land"⟩]
    rfl
  exact h

/-- C4: when `execute` succeeds on a program with `N` steps, the notifier
receives exactly `N + 2` messages: the starting message, then for each step
`i` of `N` the message `[i/N] description-or-command`, then the completed
message. -/
theorem notifier_sequence_spec (r : FlightProgramRunner) (v : Vehicle)
    (p : FlightProgram) (h : (r.execute v p).2 = .ok ()) :
    notificationsOf (r.execute v p).1 =
      startingMessage p
        :: (stepMessages p.steps p.steps.length 1 ++ [completedMessage p]) ∧
    (notificationsOf (r.execute v p).1).length = p.steps.length + 2 := by
  by_cases hs : p.steps = []
  · exfalso
    simp [FlightProgramRunner.execute, hs] at h
  · cases hb : FlightProgramRunner.read_battery v with
    | error e =>
      exfalso
      simp [FlightProgramRunner.execute, hs, hb] at h
    | ok b =>
      by_cases hlt : b < p.min_battery_percent
      · exfalso
        simp [FlightProgramRunner.execute, hs, hb, hlt] at h
      · cases hr : (r.runSteps v p.steps p.steps.length 1).2 with
        | error e =>
          exfalso
          simp [FlightProgramRunner.execute, hs, hb, hlt, hr] at h
        | ok u =>
          cases u
          have hn := runSteps_ok_notifications r v p.steps p.steps.length 1 hr
          have hmain : notificationsOf (r.execute v p).1 =
              startingMessage p
                :: (stepMessages p.steps p.steps.length 1 ++ [completedMessage p]) := by
            simp only [notificationsOf] at hn ⊢
            simp [FlightProgramRunner.execute, hs, hb, hlt, hr,
              List.filterMap_append, hn]
          refine ⟨hmain, ?_⟩
          rw [hmain]
          simp [stepMessages_length]

/-- C4 witness: the concrete three-step `tinyProgram` run on a cooperative
vehicle emits exactly its five messages, in order. -/
theorem notifier_sequence_spec_witness :
    notificationsOf (FlightProgramRunner.execute ⟨1⟩ vAll tinyProgram).1 =
      ["Starting 'Tiny' (est. 5s).", "[1/3] takeoff", "[2/3] hold",
       "[3/3] Land", "Completed 'Tiny'."] := by
  have h := (notifier_sequence_spec ⟨1⟩ vAll tinyProgram rfl).1
  rw [h]
  simp [startingMessage, completedMessage, stepMessages, stepMessage,
    tinyProgram, pyFmt0, roundHalfEven, CommandName.pyName]
  decide

/-- C7: when, after a successfully executed prefix of steps, a non-pause
step names a command the vehicle does not implement, `execute` fails with
`Tello API does not implement '<command>'`; the trace is the starting
notification, the prefix's events unchanged, and the failing step's progress
notification only — so the prior commands' invocations stand untouched and
no further command or step is attempted. -/
theorem unknown_command_spec (r : FlightProgramRunner) (v : Vehicle)
    (p : FlightProgram) (b : ℤ) (pre rest : List FlightStep) (s : FlightStep)
    (hb : FlightProgramRunner.read_battery v = .ok b)
    (hge : p.min_battery_percent ≤ b)
    (hsplit : p.steps = pre ++ s :: rest)
    (hok : (r.runSteps v pre p.steps.length 1).2 = .ok ())
    (hc : s.command ≠ .pause)
    (hi : v.implements s.command = false) :
    r.execute v p =
      (Event.notify (startingMessage p)
        :: ((r.runSteps v pre p.steps.length 1).1
            ++ [Event.notify (stepMessage s (1 + pre.length) p.steps.length)]),
       .error (.programUploadError
         ("Tello API does not implement '" ++ s.command.pyName ++ "'."))) ∧
    cmdsOf (r.execute v p).1 = cmdsOf (r.runSteps v pre p.steps.length 1).1 := by
  have hs : p.steps ≠ [] := by
    rw [hsplit]
    exact List.append_ne_nil_of_right_ne_nil pre (List.cons_ne_nil s rest)
  have hnlt : ¬ b < p.min_battery_percent := not_lt.mpr hge
  have hstep : r.execute_step v s =
      ([], some (.programUploadError
        ("Tello API does not implement '" ++ s.command.pyName ++ "'."))) := by
    simp [FlightProgramRunner.execute_step, hc, hi]
  have hs2 : (pre ++ s :: rest : List FlightStep) ≠ [] := by
    rw [← hsplit]; exact hs
  have hok2 : (r.runSteps v pre (pre ++ s :: rest).length 1).2 = .ok () := by
    rw [← hsplit]; exact hok
  have happ := runSteps_append r v pre (s :: rest) (pre ++ s :: rest).length 1 hok2
  have hbad : r.runSteps v (s :: rest) (pre ++ s :: rest).length (1 + pre.length) =
      ([Event.notify (stepMessage s (1 + pre.length) (pre ++ s :: rest).length)],
       .error (.programUploadError
         ("Tello API does not implement '" ++ s.command.pyName ++ "'."))) := by
    simp [FlightProgramRunner.runSteps, hstep]
  have hmain : r.execute v p =
      (Event.notify (startingMessage p)
        :: ((r.runSteps v pre p.steps.length 1).1
            ++ [Event.notify (stepMessage s (1 + pre.length) p.steps.length)]),
       .error (.programUploadError
         ("Tello API does not implement '" ++ s.command.pyName ++ "'."))) := by
    simp only [FlightProgramRunner.execute]
    rw [hsplit]
    rw [if_neg hs2]
    simp only [hb]
    rw [if_neg hnlt]
    rw [happ, hbad]
  refine ⟨hmain, ?_⟩
  rw [hmain]
  simp [cmdsOf, List.filterMap_append]

/-- C7 witness: on `flipProgram` with `vNoFlip` (no `flip` attribute), the
run fails at step 2 with the unknown-command error while step 1's takeoff
invocation stands in the trace. -/
theorem unknown_command_spec_witness :
    FlightProgramRunner.execute ⟨0⟩ vNoFlip flipProgram =
      (Event.notify (startingMessage flipProgram)
        :: ((FlightProgramRunner.runSteps ⟨0⟩ vNoFlip [⟨.takeoff, [], 0, ""⟩]
              flipProgram.steps.length 1).1
            ++ [Event.notify (stepMessage ⟨.flip, [.str "l"], 0, ""⟩ 2
                  flipProgram.steps.length)]),
       .error (.programUploadError "Tello API does not implement 'flip'.")) := by
  have h := (unknown_command_spec ⟨0⟩ vNoFlip flipProgram 100
    [⟨.takeoff, [], 0, ""⟩] [⟨.land, [], 0, ""⟩] ⟨.flip, [.str "l"], 0, ""⟩
    rfl (by decide) rfl rfl (by decide) rfl).1
  exact h

/-- C5: for every string, `get_program` returns the cataloged program whose
identifier is the lower-casing of the string when one exists (lookup is
case-insensitive, so `SQUARE-DANCE` and `square-dance` yield the identical
program), and otherwise fails with a `ProgramUploadError` naming the unknown
identifier and suggesting the discovery command — never a default. -/
theorem get_program_spec (s : String) :
    ((∃ p, p ∈ catalogPrograms ∧ p.identifier = pyLower s ∧
        FlightProgramLibrary.get_program s = .ok p) ∨
      ((∀ p ∈ catalogPrograms, p.identifier ≠ pyLower s) ∧
        FlightProgramLibrary.get_program s =
          .error (.programUploadError
            ("Unknown program '" ++ s
              ++ "'. Use 'programs list' to inspect options.")))) ∧
    FlightProgramLibrary.get_program "SQUARE-DANCE" =
      FlightProgramLibrary.get_program "square-dance" ∧
    FlightProgramLibrary.get_program "square-dance" = .ok square_dance := by
  refine ⟨?_, rfl, rfl⟩
  by_cases h1 : pyLower s = "square-dance"
  · refine Or.inl ⟨square_dance, by simp [catalogPrograms], by simp [square_dance, h1], ?_⟩
    simp [FlightProgramLibrary.get_program, h1]
    rfl
  · by_cases h2 : pyLower s = "spiral-climb"
    · refine Or.inl ⟨spiral_climb, by simp [catalogPrograms], by simp [spiral_climb, h2], ?_⟩
      simp [FlightProgramLibrary.get_program, h2]
      rfl
    · by_cases h3 : pyLower s = "zigzag-dash"
      · refine Or.inl ⟨zigzag, by simp [catalogPrograms], by simp [zigzag, h3], ?_⟩
        simp [FlightProgramLibrary.get_program, h3]
        rfl
      · by_cases h4 : pyLower s = "selfie-orbit"
        · refine Or.inl ⟨selfie_orbit, by simp [catalogPrograms], by simp [selfie_orbit, h4], ?_⟩
          simp [FlightProgramLibrary.get_program, h4]
          rfl
        · refine Or.inr ⟨?_, ?_⟩
          · intro p hp
            simp [catalogPrograms] at hp
            rcases hp with rfl | rfl | rfl | rfl <;>
              simp [square_dance, spiral_climb, zigzag, selfie_orbit] <;>
              [exact fun h => h1 h.symm; exact fun h => h2 h.symm;
               exact fun h => h3 h.symm; exact fun h => h4 h.symm]
          · have e1 : (pyLower s == "square-dance") = false :=
              beq_eq_false_iff_ne.mpr h1
            have e2 : (pyLower s == "spiral-climb") = false :=
              beq_eq_false_iff_ne.mpr h2
            have e3 : (pyLower s == "zigzag-dash") = false :=
              beq_eq_false_iff_ne.mpr h3
            have e4 : (pyLower s == "selfie-orbit") = false :=
              beq_eq_false_iff_ne.mpr h4
            have hlook : List.lookup (pyLower s) FlightProgramLibrary.programs = none := by
              simp [FlightProgramLibrary.programs, catalogPrograms, List.lookup,
                square_dance, spiral_climb, zigzag, selfie_orbit, e1, e2, e3, e4]
            simp [FlightProgramLibrary.get_program, hlook]

lemma mkFlightProgram_ok (p : FlightProgram)
    (h1 : p.identifier ≠ "") (h2 : p.steps ≠ [])
    (h3 : ¬ p.recommended_space_m ≤ 0)
    (h4 : 0 < p.min_battery_percent ∧ p.min_battery_percent ≤ 100)
    (h5 : ¬ p.estimated_duration_seconds ≤ 0) :
    mkFlightProgram p.identifier p.title p.objective p.steps
      p.recommended_space_m p.min_battery_percent
      p.estimated_duration_seconds = .ok p := by
  simp only [mkFlightProgram]
  rw [if_neg h1, if_neg h2, if_neg h3, if_neg (not_not.mpr h4), if_neg h5]

/-- C8: `FlightProgram` construction succeeds exactly when the identifier is
non-empty, the steps are non-empty, the recommended space and estimated
duration are strictly positive, and the minimum battery percent lies in
`1..100`; and every program of the default catalog passes construction and
satisfies those invariants. -/
theorem program_validation_spec (identifier title objective : String)
    (steps : List FlightStep) (space : ℚ) (battery : ℤ) (duration : ℚ) :
    ((∃ p, mkFlightProgram identifier title objective steps space battery duration
        = .ok p) ↔
      (identifier ≠ "" ∧ steps ≠ [] ∧ 0 < space ∧ 0 < battery ∧ battery ≤ 100 ∧
        0 < duration)) ∧
    (∀ p ∈ catalogPrograms,
      mkFlightProgram p.identifier p.title p.objective p.steps
          p.recommended_space_m p.min_battery_percent
          p.estimated_duration_seconds = .ok p ∧
      p.steps ≠ [] ∧ 0 < p.recommended_space_m ∧
      0 < p.estimated_duration_seconds ∧
      0 < p.min_battery_percent ∧ p.min_battery_percent ≤ 100) := by
  constructor
  · constructor
    · rintro ⟨p, hp⟩
      simp only [mkFlightProgram] at hp
      split_ifs at hp with h1 h2 h3 h4 h5
      any_goals simp at hp
      exact ⟨h1, h2, not_le.mp h3, h4.1, h4.2, not_le.mp h5⟩
    · rintro ⟨h1, h2, h3, h4, h5, h6⟩
      refine ⟨⟨identifier, title, objective, steps, space, battery, duration⟩, ?_⟩
      simp only [mkFlightProgram]
      rw [if_neg h1, if_neg h2, if_neg (not_le.mpr h3),
        if_neg (not_not.mpr ⟨h4, h5⟩), if_neg (not_le.mpr h6)]
  · intro p hp
    simp only [catalogPrograms, List.mem_cons, List.not_mem_nil, or_false] at hp
    rcases hp with rfl | rfl | rfl | rfl
    · exact ⟨mkFlightProgram_ok square_dance (by decide) (by simp [square_dance])
        (by norm_num [square_dance]) (by decide) (by norm_num [square_dance]),
        by simp [square_dance], by norm_num [square_dance],
        by norm_num [square_dance], by decide, by decide⟩
    · exact ⟨mkFlightProgram_ok spiral_climb (by decide) (by simp [spiral_climb])
        (by norm_num [spiral_climb]) (by decide) (by norm_num [spiral_climb]),
        by simp [spiral_climb], by norm_num [spiral_climb],
        by norm_num [spiral_climb], by decide, by decide⟩
    · exact ⟨mkFlightProgram_ok zigzag (by decide) (by simp [zigzag])
        (by norm_num [zigzag]) (by decide) (by norm_num [zigzag]),
        by simp [zigzag], by norm_num [zigzag],
        by norm_num [zigzag], by decide, by decide⟩
    · exact ⟨mkFlightProgram_ok selfie_orbit (by decide) (by simp [selfie_orbit])
        (by norm_num [selfie_orbit]) (by decide) (by norm_num [selfie_orbit]),
        by simp [selfie_orbit], by norm_num [selfie_orbit],
        by norm_num [selfie_orbit], by decide, by decide⟩

/-- C9: `list_programs` returns exactly one summary per cataloged program,
in registration order — square-dance, spiral-climb, zigzag-dash,
selfie-orbit — each carrying that program's identifier, title, objective,
recommended space, minimum battery and estimated duration. -/
theorem list_programs_spec :
    FlightProgramLibrary.list_programs =
      [⟨"square-dance", "Square Dance",
         "Trace a one-meter square with style and celebratory flips.",
         3.0, 50, 55.0⟩,
       ⟨"spiral-climb", "Spiral Climb",
         "Climb in a tightening spiral to showcase altitude control.",
         3.5, 40, 60.0⟩,
       ⟨"zigzag-dash", "Zig-Zag Dash",
         "Agile lateral zig-zag with quick rotations.",
         4.0, 35, 45.0⟩,
       ⟨"selfie-orbit", "Selfie Orbit",
         "Slow, camera-friendly orbit and bow for filming.",
         5.0, 45, 75.0⟩] ∧
    FlightProgramLibrary.list_programs =
      [summaryOf square_dance, summaryOf spiral_climb, summaryOf zigzag,
       summaryOf selfie_orbit] :=
  ⟨rfl, rfl⟩

/-- C10 witness: `make (-1)` raises the `ValueError`; `make 2` stores `2`. -/
theorem runner_init_spec_witness :
    FlightProgramRunner.make (-1) =
      .error (.valueError "default_pause_seconds must be non-negative.") ∧
    FlightProgramRunner.make 2 = .ok ⟨2⟩ :=
  ⟨((runner_init_spec (-1)).1 (by norm_num)).1, (runner_init_spec 2).2 (by norm_num)⟩

/-- C6 witness: an in-range integer reading (100) is returned unchanged. -/
theorem battery_read_spec_witness :
    FlightProgramRunner.read_battery vAll = .ok 100 :=
  ((battery_read_spec vAll).2.2 100 rfl).1 ⟨by decide, by decide⟩

/-- C5 witness: the upper-cased and lower-cased identifiers give the
identical result. -/
theorem get_program_spec_witness :
    FlightProgramLibrary.get_program "SQUARE-DANCE" =
      FlightProgramLibrary.get_program "square-dance" :=
  (get_program_spec "SQUARE-DANCE").2.1

/-- C8 witness: `square-dance` passes construction-time validation. -/
theorem program_validation_spec_witness :
    mkFlightProgram square_dance.identifier square_dance.title
      square_dance.objective square_dance.steps square_dance.recommended_space_m
      square_dance.min_battery_percent square_dance.estimated_duration_seconds =
      .ok square_dance :=
  ((program_validation_spec "x" "x" "x" [] 1 1 1).2 square_dance
    (by simp [catalogPrograms])).1
